import Mathlib

/-!
Verification of the DeepTrace backend (`main.py`): the deterministic
scoring pipeline of `analyze_media`, the aggregate likelihood, the
simulated ledger verification of `verify_media`, and the degrade-gracefully
persistence contract.  Python floats are modelled exactly with `ℚ` (all the
arithmetic of the source is integer arithmetic followed by divisions),
byte strings with `List Nat`, and the SHA-256 library call with an
abstract digest-producing parameter.  Python's `int(s, 16)` conversion is
modelled by `pyIntHex?`, including whitespace stripping, an optional sign,
an optional `0x` prefix and underscore separators; an invalid numeral
makes it return `none`, which the endpoints surface as an unhandled
exception (HTTP 500), mirroring the absence of any try/except around the
conversion in the source.
-/

/-- ASCII whitespace characters that Python's `int` conversion strips. -/
def isPySpace (c : Char) : Bool :=
  c = ' ' || c = '\t' || c = '\n' || c = '\r' || c = '\x0b' || c = '\x0c'

/-- Value of a single hexadecimal digit character, as accepted by
Python's `int(s, 16)` (digits `0`-`9`, `a`-`f`, `A`-`F`). -/
def hexDigit? (c : Char) : Option Nat :=
  if 48 ≤ c.toNat ∧ c.toNat ≤ 57 then some (c.toNat - 48)
  else if 97 ≤ c.toNat ∧ c.toNat ≤ 102 then some (c.toNat - 87)
  else if 65 ≤ c.toNat ∧ c.toNat ≤ 70 then some (c.toNat - 55)
  else none

/-- Hex digits optionally separated by single underscores (each
underscore must be followed by a digit), continuing a number whose
accumulated value is `acc`. -/
def hexDigitsCore : List Char → Nat → Option Nat
  | [], acc => some acc
  | [c], acc =>
    if (hexDigit? c).isSome then some (acc * 16 + (hexDigit? c).getD 0)
    else none
  | c :: c2 :: rest, acc =>
    if (hexDigit? c).isSome then hexDigitsCore (c2 :: rest) (acc * 16 + (hexDigit? c).getD 0)
    else if c = '_' ∧ (hexDigit? c2).isSome then
      hexDigitsCore rest (acc * 16 + (hexDigit? c2).getD 0)
    else none

/-- A nonempty run of hex digits with underscore separators; the first
character must be a digit. -/
def hexDigitsPy? : List Char → Option Nat
  | [] => none
  | c :: rest =>
    if (hexDigit? c).isSome then hexDigitsCore rest ((hexDigit? c).getD 0) else none

/-- The part of a base-16 numeral after the optional sign: an optional
`0x`/`0X` prefix (which may be followed by one underscore) and then the
digits. -/
def afterSignHex (l : List Char) : Option Nat :=
  match l with
  | c0 :: c1 :: rest =>
    if c0 = '0' ∧ (c1 = 'x' ∨ c1 = 'X') then
      if rest.head? = some '_' then hexDigitsPy? rest.tail else hexDigitsPy? rest
    else hexDigitsPy? (c0 :: c1 :: rest)
  | _ => hexDigitsPy? l

/-- Python's `int(s, 16)`: strip whitespace, optional sign, optional
`0x` prefix, underscore-separated hex digits; `none` when the string is
not a valid base-16 numeral (in the source this raises `ValueError`). -/
def pyIntHex? (s : String) : Option Int :=
  let l := s.data.dropWhile isPySpace
  let l2 := (l.reverse.dropWhile isPySpace).reverse
  match l2 with
  | [] => none
  | c :: rest =>
    if c = '+' then (afterSignHex rest).map Int.ofNat
    else if c = '-' then (afterSignHex rest).map (fun n => -(Int.ofNat n))
    else (afterSignHex (c :: rest)).map Int.ofNat

/-- ASCII lower-casing of one character, the fragment of Python's
`str.lower` relevant to filenames and hex digests. -/
def pyLowerChar (c : Char) : Char :=
  if c = 'A' then 'a' else if c = 'B' then 'b' else if c = 'C' then 'c'
  else if c = 'D' then 'd' else if c = 'E' then 'e' else if c = 'F' then 'f'
  else if c = 'G' then 'g' else if c = 'H' then 'h' else if c = 'I' then 'i'
  else if c = 'J' then 'j' else if c = 'K' then 'k' else if c = 'L' then 'l'
  else if c = 'M' then 'm' else if c = 'N' then 'n' else if c = 'O' then 'o'
  else if c = 'P' then 'p' else if c = 'Q' then 'q' else if c = 'R' then 'r'
  else if c = 'S' then 's' else if c = 'T' then 't' else if c = 'U' then 'u'
  else if c = 'V' then 'v' else if c = 'W' then 'w' else if c = 'X' then 'x'
  else if c = 'Y' then 'y' else if c = 'Z' then 'z' else c

/-- Python's `str.lower()` on an ASCII string. -/
def pyLower (s : String) : String := ⟨s.data.map pyLowerChar⟩

/-- The filename guard of `analyze_media`:
`file.filename.lower().endswith((".mp4", ".avi"))`. -/
def allowedExt (filename : String) : Bool :=
  ".mp4".data.isSuffixOf (pyLower filename).data ||
  ".avi".data.isSuffixOf (pyLower filename).data

/-- The deterministic pseudo-random map of `analyze_media`:
`pseudo_rand(i) = ((seed * (i + 73)) % 1000) / 1000.0`. -/
def pseudo_rand (seed : Int) (i : Nat) : ℚ :=
  (((seed * ((i : Int) + 73)) % 1000 : Int) : ℚ) / 1000

/-- The pre-clamp confidence of frame `i`:
`0.5 + 0.5 * ((pseudo_rand(i) + pseudo_rand(i // 3)) / 2)`. -/
def rawConf (seed : Int) (i : Nat) : ℚ :=
  1 / 2 + 1 / 2 * ((pseudo_rand seed i + pseudo_rand seed (i / 3)) / 2)

/-- The clamp `max(0.0, min(1.0, conf))` of `analyze_media`. -/
def clampConf (x : ℚ) : ℚ := max 0 (min 1 x)

/-- The emitted confidence of frame `i`. -/
def frameConf (seed : Int) (i : Nat) : ℚ := clampConf (rawConf seed i)

/-- One element of the `frame_scores` list of `analyze_media`. -/
structure FrameScore where
  frame_index : Nat
  confidence : ℚ
deriving DecidableEq

/-- The `frame_scores` list built by the loop `for i in range(total_frames)`. -/
def frame_scores_of (seed : Int) (total : Nat) : List FrameScore :=
  (List.range total).map (fun i => { frame_index := i, confidence := frameConf seed i })

/-- `total_frames = 60` of `analyze_media`. -/
def total_frames : Nat := 60

/-- The aggregate
`deepfake_likelihood = sum(s["confidence"] for s in frame_scores) / total_frames`. -/
def deepfake_likelihood_of (seed : Int) (total : Nat) : ℚ :=
  ((frame_scores_of seed total).map FrameScore.confidence).sum / (total : ℚ)

/-- A value stored in the persisted job document. -/
inductive DocValue where
  | str : String → DocValue
  | nat : Nat → DocValue
  | rat : ℚ → DocValue
  | scores : List FrameScore → DocValue
deriving DecidableEq

/-- The `job_doc` dictionary of `analyze_media`, the record handed to
`create_document("analysisjob", job_doc)`. -/
def job_doc_of (filename : String) (filesize : Nat) (filehash : String)
    (likelihood : ℚ) (fscores : List FrameScore) (analyzed_at : String) :
    List (String × DocValue) :=
  [("filename", .str filename),
   ("filesize", .nat filesize),
   ("filehash", .str filehash),
   ("status", .str "completed"),
   ("accuracy", .rat (95 / 100)),
   ("deepfake_likelihood", .rat likelihood),
   ("model", .str "CNN+LSTM v1"),
   ("frame_scores", .scores fscores),
   ("analyzed_at", .str analyzed_at)]

/-- The simulated blockchain verification dictionary. -/
structure Verification where
  contract_address : String
  tx_hash : String
  network : String
  verified : Bool
  timestamp : String
deriving DecidableEq

/-- The `AnalyzeResponse` model returned by `POST /api/analyze`. -/
structure AnalyzeResponse where
  job_id : String
  filename : String
  accuracy : ℚ
  deepfake_likelihood : ℚ
  frame_scores : List FrameScore
  analyzed_at : String
  verification : Verification
deriving DecidableEq

/-- How a request can fail: an explicitly raised `HTTPException`, or an
unhandled Python exception which FastAPI surfaces as HTTP 500. -/
inductive HttpError where
  | httpException : Nat → String → HttpError
  | internalServerError : HttpError
deriving DecidableEq

/-- `POST /api/analyze` (`analyze_media` in `main.py`).  `create_document`
models the persistence store's create operation (`database.py`, absent
from the repository): it either returns the store-assigned identifier or
fails; `sha256_hexdigest` models `hashlib.sha256(content).hexdigest()`;
`now` models the ISO form of `datetime.now(timezone.utc)`. -/
def analyze_media
    (create_document : String → List (String × DocValue) → Except Unit String)
    (sha256_hexdigest : List Nat → String) (now : String)
    (filename : String) (content : List Nat) : Except HttpError AnalyzeResponse :=
  if !allowedExt filename then
    .error (.httpException 400 "Only MP4 or AVI files are supported")
  else
    let filehash := sha256_hexdigest content
    let filesize := content.length
    match pyIntHex? ⟨filehash.data.take 8⟩ with
    | none => .error .internalServerError
    | some seed =>
      let fscores := frame_scores_of seed total_frames
      let lik := deepfake_likelihood_of seed total_frames
      let job_id :=
        match create_document "analysisjob"
            (job_doc_of filename filesize filehash lik fscores now) with
        | .ok i => i
        | .error _ => "temporary"
      match pyIntHex? filehash with
      | none => .error .internalServerError
      | some v =>
        .ok { job_id := job_id
              filename := filename
              accuracy := 95 / 100
              deepfake_likelihood := lik
              frame_scores := fscores
              analyzed_at := now
              verification :=
                { contract_address := "0xDeePTrAce00000000000000000000000000000001"
                  tx_hash := "0x" ++ ⟨filehash.data.take 64⟩
                  network := "ethereum"
                  verified := v % 2 == 0
                  timestamp := now } }

/-- The response of `POST /api/verify`. -/
structure VerifyResponse where
  filehash : String
  contract_address : String
  tx_hash : String
  network : String
  verified : Bool
  timestamp : String
deriving DecidableEq

/-- `POST /api/verify` (`verify_media` in `main.py`). -/
def verify_media (now : String) (filehash : String) : Except HttpError VerifyResponse :=
  let fh := pyLower filehash
  match pyIntHex? fh with
  | none => .error .internalServerError
  | some v =>
    .ok { filehash := fh
          contract_address := "0xDeePTrAce00000000000000000000000000000001"
          tx_hash := "0x" ++ ⟨fh.data.take 64⟩
          network := "ethereum"
          verified := v % 2 == 0
          timestamp := now }

deriving instance DecidableEq for Except

/-- Value of a string of plain hex digits (used to state what
`int(s, 16)` returns on digest strings). -/
def hexValDigits : List Char → Nat → Nat
  | [], acc => acc
  | c :: rest, acc => hexValDigits rest (acc * 16 + (hexDigit? c).getD 0)

/-- A 64-character all-zero digest, used as a concrete test digest. -/
def zeroDigest : String := ⟨List.replicate 64 '0'⟩

example : pyIntHex? "00000000" = some 0 := by decide
example : pyIntHex? "0x_1A" = some 26 := by decide
example : pyIntHex? "zzz" = none := by decide
example : pyIntHex? " -ff " = some (-255) := by decide
example : pyIntHex? "1__2" = none := by decide
example : pyIntHex? "1_2" = some 18 := by decide
example : pyIntHex? "" = none := by decide
example : allowedExt "CLIP.MP4" = true := by decide
example : allowedExt "clip.mov" = false := by decide
example : verify_media "t" "zzz" = .error .internalServerError := by decide

/-! ### Lemmas about the base-16 conversion and lower-casing -/

theorem hex_not_space {c : Char} (h : (hexDigit? c).isSome = true) :
    isPySpace c = false := by
  cases hps : isPySpace c
  · rfl
  · exfalso
    simp only [isPySpace, Bool.or_eq_true, decide_eq_true_eq] at hps
    rcases hps with ((((h1 | h1) | h1) | h1) | h1) | h1 <;> subst h1 <;>
      exact absurd h (by decide)

theorem hex_ne {c x : Char} (h : (hexDigit? c).isSome = true)
    (hx : (hexDigit? x).isSome = false) : c ≠ x := by
  intro he
  subst he
  rw [h] at hx
  cases hx

theorem hexDigit_pyLowerChar (c : Char) : hexDigit? (pyLowerChar c) = hexDigit? c := by
  by_cases hA : c = 'A'
  · subst hA; decide
  by_cases hB : c = 'B'
  · subst hB; decide
  by_cases hC : c = 'C'
  · subst hC; decide
  by_cases hD : c = 'D'
  · subst hD; decide
  by_cases hE : c = 'E'
  · subst hE; decide
  by_cases hF : c = 'F'
  · subst hF; decide
  by_cases hG : c = 'G'
  · subst hG; decide
  by_cases hH : c = 'H'
  · subst hH; decide
  by_cases hI : c = 'I'
  · subst hI; decide
  by_cases hJ : c = 'J'
  · subst hJ; decide
  by_cases hK : c = 'K'
  · subst hK; decide
  by_cases hL : c = 'L'
  · subst hL; decide
  by_cases hM : c = 'M'
  · subst hM; decide
  by_cases hN : c = 'N'
  · subst hN; decide
  by_cases hO : c = 'O'
  · subst hO; decide
  by_cases hP : c = 'P'
  · subst hP; decide
  by_cases hQ : c = 'Q'
  · subst hQ; decide
  by_cases hR : c = 'R'
  · subst hR; decide
  by_cases hS : c = 'S'
  · subst hS; decide
  by_cases hT : c = 'T'
  · subst hT; decide
  by_cases hU : c = 'U'
  · subst hU; decide
  by_cases hV : c = 'V'
  · subst hV; decide
  by_cases hW : c = 'W'
  · subst hW; decide
  by_cases hX : c = 'X'
  · subst hX; decide
  by_cases hY : c = 'Y'
  · subst hY; decide
  by_cases hZ : c = 'Z'
  · subst hZ; decide
  have hc : pyLowerChar c = c := by
    unfold pyLowerChar
    simp [hA, hB, hC, hD, hE, hF, hG, hH, hI, hJ, hK, hL, hM, hN, hO, hP, hQ, hR, hS, hT, hU, hV, hW, hX, hY, hZ]
  rw [hc]

theorem pyLowerChar_idem (c : Char) : pyLowerChar (pyLowerChar c) = pyLowerChar c := by
  by_cases hA : c = 'A'
  · subst hA; decide
  by_cases hB : c = 'B'
  · subst hB; decide
  by_cases hC : c = 'C'
  · subst hC; decide
  by_cases hD : c = 'D'
  · subst hD; decide
  by_cases hE : c = 'E'
  · subst hE; decide
  by_cases hF : c = 'F'
  · subst hF; decide
  by_cases hG : c = 'G'
  · subst hG; decide
  by_cases hH : c = 'H'
  · subst hH; decide
  by_cases hI : c = 'I'
  · subst hI; decide
  by_cases hJ : c = 'J'
  · subst hJ; decide
  by_cases hK : c = 'K'
  · subst hK; decide
  by_cases hL : c = 'L'
  · subst hL; decide
  by_cases hM : c = 'M'
  · subst hM; decide
  by_cases hN : c = 'N'
  · subst hN; decide
  by_cases hO : c = 'O'
  · subst hO; decide
  by_cases hP : c = 'P'
  · subst hP; decide
  by_cases hQ : c = 'Q'
  · subst hQ; decide
  by_cases hR : c = 'R'
  · subst hR; decide
  by_cases hS : c = 'S'
  · subst hS; decide
  by_cases hT : c = 'T'
  · subst hT; decide
  by_cases hU : c = 'U'
  · subst hU; decide
  by_cases hV : c = 'V'
  · subst hV; decide
  by_cases hW : c = 'W'
  · subst hW; decide
  by_cases hX : c = 'X'
  · subst hX; decide
  by_cases hY : c = 'Y'
  · subst hY; decide
  by_cases hZ : c = 'Z'
  · subst hZ; decide
  have hc : pyLowerChar c = c := by
    unfold pyLowerChar
    simp [hA, hB, hC, hD, hE, hF, hG, hH, hI, hJ, hK, hL, hM, hN, hO, hP, hQ, hR, hS, hT, hU, hV, hW, hX, hY, hZ]
  simp only [hc]

theorem pyLower_idem (s : String) : pyLower (pyLower s) = pyLower s := by
  have hfun : pyLowerChar ∘ pyLowerChar = pyLowerChar := funext pyLowerChar_idem
  show (⟨(s.data.map pyLowerChar).map pyLowerChar⟩ : String) = ⟨s.data.map pyLowerChar⟩
  rw [List.map_map, hfun]

theorem dropWhile_space_eq_self {l : List Char}
    (h : ∀ c ∈ l, (hexDigit? c).isSome = true) : l.dropWhile isPySpace = l := by
  cases l with
  | nil => rfl
  | cons c rest =>
    have hc := hex_not_space (h c (List.mem_cons_self c rest))
    simp [List.dropWhile, hc]

theorem hexDigitsCore_digits :
    ∀ (l : List Char) (acc : Nat), (∀ c ∈ l, (hexDigit? c).isSome = true) →
      hexDigitsCore l acc = some (hexValDigits l acc)
  | [], _, _ => rfl
  | [c], acc, h => by
    have hc := h c (by simp)
    simp [hexDigitsCore, hc, hexValDigits]
  | c :: c2 :: rest, acc, h => by
    have hc := h c (by simp)
    simp only [hexDigitsCore, hc, if_true, if_pos]
    rw [hexDigitsCore_digits (c2 :: rest) _ (fun x hx => h x (by simp [hx]))]
    simp [hexValDigits]

theorem hexDigitsPy_digits {l : List Char} (hne : l ≠ [])
    (h : ∀ c ∈ l, (hexDigit? c).isSome = true) :
    hexDigitsPy? l = some (hexValDigits l 0) := by
  cases l with
  | nil => exact absurd rfl hne
  | cons c rest =>
    have hc := h c (by simp)
    simp only [hexDigitsPy?, hc, if_true, if_pos]
    rw [hexDigitsCore_digits rest _ (fun x hx => h x (by simp [hx]))]
    simp [hexValDigits]

theorem afterSignHex_digits {l : List Char} (hne : l ≠ [])
    (h : ∀ c ∈ l, (hexDigit? c).isSome = true) :
    afterSignHex l = some (hexValDigits l 0) := by
  cases l with
  | nil => exact absurd rfl hne
  | cons c0 t =>
    cases t with
    | nil => exact hexDigitsPy_digits (by simp) h
    | cons c1 rest =>
      have h1 := h c1 (by simp)
      have hnx : ¬(c0 = '0' ∧ (c1 = 'x' ∨ c1 = 'X')) := by
        rintro ⟨-, hx | hx⟩ <;> subst hx <;> exact absurd h1 (by decide)
      have harm : afterSignHex (c0 :: c1 :: rest) =
          if c0 = '0' ∧ (c1 = 'x' ∨ c1 = 'X') then
            (if rest.head? = some '_' then hexDigitsPy? rest.tail else hexDigitsPy? rest)
          else hexDigitsPy? (c0 :: c1 :: rest) := rfl
      rw [harm, if_neg hnx]
      exact hexDigitsPy_digits (by simp) h

theorem pyIntHex_digits {l : List Char} (hne : l ≠ [])
    (h : ∀ c ∈ l, (hexDigit? c).isSome = true) :
    pyIntHex? ⟨l⟩ = some ((hexValDigits l 0 : Nat) : Int) := by
  unfold pyIntHex?
  have hd1 : l.dropWhile isPySpace = l := dropWhile_space_eq_self h
  have hd2 : l.reverse.dropWhile isPySpace = l.reverse :=
    dropWhile_space_eq_self (fun c hc => h c (List.mem_reverse.mp hc))
  simp only [hd1, hd2, List.reverse_reverse]
  cases l with
  | nil => exact absurd rfl hne
  | cons c rest =>
    have hc := h c (by simp)
    have hplus : c ≠ '+' := hex_ne hc (by decide)
    have hminus : c ≠ '-' := hex_ne hc (by decide)
    simp only [if_neg hplus, if_neg hminus, afterSignHex_digits (by simp) h, Option.map_some']
    rfl

theorem hexValDigits_mod_two :
    ∀ (l : List Char) (c : Char) (acc : Nat), l.getLast? = some c →
      hexValDigits l acc % 2 = (hexDigit? c).getD 0 % 2
  | [], _, _, h => by simp at h
  | [x], c, acc, h => by
    have hx : x = c := by simpa using h
    subst hx
    simp only [hexValDigits]
    omega
  | x :: y :: rest, c, acc, h => by
    rw [List.getLast?_cons_cons] at h
    exact hexValDigits_mod_two (y :: rest) c _ h

theorem hexValDigits_map_lower :
    ∀ (l : List Char) (acc : Nat), hexValDigits (l.map pyLowerChar) acc = hexValDigits l acc
  | [], _ => rfl
  | c :: rest, acc => by
    simp only [List.map_cons, hexValDigits, hexDigit_pyLowerChar]
    exact hexValDigits_map_lower rest _

/-! ### Evaluation lemmas for the two endpoints -/

theorem analyze_media_eq
    (create_document : String → List (String × DocValue) → Except Unit String)
    (sha256_hexdigest : List Nat → String) (now fn : String) (content : List Nat)
    (seed v : Int)
    (hext : allowedExt fn = true)
    (h8 : pyIntHex? ⟨(sha256_hexdigest content).data.take 8⟩ = some seed)
    (hv : pyIntHex? (sha256_hexdigest content) = some v) :
    analyze_media create_document sha256_hexdigest now fn content =
      .ok { job_id :=
              match create_document "analysisjob"
                  (job_doc_of fn content.length (sha256_hexdigest content)
                    (deepfake_likelihood_of seed total_frames)
                    (frame_scores_of seed total_frames) now) with
              | .ok i => i
              | .error _ => "temporary"
            filename := fn
            accuracy := 95 / 100
            deepfake_likelihood := deepfake_likelihood_of seed total_frames
            frame_scores := frame_scores_of seed total_frames
            analyzed_at := now
            verification :=
              { contract_address := "0xDeePTrAce00000000000000000000000000000001"
                tx_hash := "0x" ++ ⟨(sha256_hexdigest content).data.take 64⟩
                network := "ethereum"
                verified := v % 2 == 0
                timestamp := now } } := by
  unfold analyze_media
  rw [hext]
  simp only [Bool.not_true, Bool.false_eq_true, if_false, h8, hv]

theorem verify_media_eq (now s : String) (v : Int)
    (h : pyIntHex? (pyLower s) = some v) :
    verify_media now s =
      .ok { filehash := pyLower s
            contract_address := "0xDeePTrAce00000000000000000000000000000001"
            tx_hash := "0x" ++ ⟨(pyLower s).data.take 64⟩
            network := "ethereum"
            verified := v % 2 == 0
            timestamp := now } := by
  unfold verify_media
  simp only [h]

/-! ### Bounds on the score generator and the aggregate -/

theorem pseudo_rand_nonneg (seed : Int) (i : Nat) : 0 ≤ pseudo_rand seed i := by
  unfold pseudo_rand
  have h0 : (0 : Int) ≤ (seed * ((i : Int) + 73)) % 1000 :=
    Int.emod_nonneg _ (by norm_num)
  have h0q : (0 : ℚ) ≤ ((seed * ((i : Int) + 73)) % 1000 : Int) := by
    exact_mod_cast h0
  linarith

theorem pseudo_rand_le (seed : Int) (i : Nat) : pseudo_rand seed i ≤ 999 / 1000 := by
  unfold pseudo_rand
  have h1 : (seed * ((i : Int) + 73)) % 1000 < 1000 :=
    Int.emod_lt_of_pos _ (by norm_num)
  have h2 : (seed * ((i : Int) + 73)) % 1000 ≤ 999 := by omega
  have h2q : (((seed * ((i : Int) + 73)) % 1000 : Int) : ℚ) ≤ 999 := by
    exact_mod_cast h2
  linarith

theorem rawConf_bounds (seed : Int) (i : Nat) :
    1 / 2 ≤ rawConf seed i ∧ rawConf seed i ≤ 1999 / 2000 := by
  unfold rawConf
  have ha := pseudo_rand_nonneg seed i
  have hb := pseudo_rand_nonneg seed (i / 3)
  have hc := pseudo_rand_le seed i
  have hd := pseudo_rand_le seed (i / 3)
  constructor <;> linarith

theorem clampConf_of_bounds {x : ℚ} (h0 : 0 ≤ x) (h1 : x ≤ 1) : clampConf x = x := by
  unfold clampConf
  rw [min_eq_right h1, max_eq_right h0]

theorem frameConf_eq_rawConf (seed : Int) (i : Nat) : frameConf seed i = rawConf seed i := by
  unfold frameConf
  have hb := rawConf_bounds seed i
  exact clampConf_of_bounds (by linarith [hb.1]) (by linarith [hb.2])

theorem frameConf_bounds (seed : Int) (i : Nat) :
    1 / 2 ≤ frameConf seed i ∧ frameConf seed i ≤ 1999 / 2000 := by
  rw [frameConf_eq_rawConf]
  exact rawConf_bounds seed i

theorem mul_length_le_sum :
    ∀ (l : List ℚ) (b : ℚ), (∀ x ∈ l, b ≤ x) → (l.length : ℚ) * b ≤ l.sum
  | [], _, _ => by simp
  | x :: rest, b, h => by
    have hx := h x (by simp)
    have ih := mul_length_le_sum rest b (fun y hy => h y (by simp [hy]))
    simp only [List.length_cons, List.sum_cons]
    push_cast
    linarith

theorem sum_le_mul_length :
    ∀ (l : List ℚ) (b : ℚ), (∀ x ∈ l, x ≤ b) → l.sum ≤ (l.length : ℚ) * b
  | [], _, _ => by simp
  | x :: rest, b, h => by
    have hx := h x (by simp)
    have ih := sum_le_mul_length rest b (fun y hy => h y (by simp [hy]))
    simp only [List.length_cons, List.sum_cons]
    push_cast
    linarith

theorem frame_scores_length (seed : Int) (total : Nat) :
    (frame_scores_of seed total).length = total := by
  unfold frame_scores_of
  simp

theorem deepfake_likelihood_bounds (seed : Int) (total : Nat) (htot : total ≠ 0) :
    1 / 2 ≤ deepfake_likelihood_of seed total ∧
    deepfake_likelihood_of seed total ≤ 1999 / 2000 := by
  unfold deepfake_likelihood_of
  have hlen : ((frame_scores_of seed total).map FrameScore.confidence).length = total := by
    simp [frame_scores_length]
  have hmem : ∀ x ∈ (frame_scores_of seed total).map FrameScore.confidence,
      1 / 2 ≤ x ∧ x ≤ 1999 / 2000 := by
    intro x hx
    obtain ⟨s, hs, hx⟩ := List.mem_map.mp hx
    obtain ⟨i, hi, hsdef⟩ := List.mem_map.mp hs
    subst hsdef
    subst hx
    exact frameConf_bounds seed i
  have hlo := mul_length_le_sum _ (1 / 2) (fun x hx => (hmem x hx).1)
  have hhi := sum_le_mul_length _ (1999 / 2000) (fun x hx => (hmem x hx).2)
  rw [hlen] at hlo hhi
  have htpos : (0 : ℚ) < total := by
    have : 0 < total := Nat.pos_of_ne_zero htot
    exact_mod_cast this
  constructor
  · rw [le_div_iff₀ htpos]
    linarith
  · rw [div_le_iff₀ htpos]
    linarith

theorem likelihood_of_all_half (seed : Int) (total : Nat) (htot : total ≠ 0)
    (h : ∀ s ∈ frame_scores_of seed total, s.confidence = 1 / 2) :
    deepfake_likelihood_of seed total = 1 / 2 := by
  unfold deepfake_likelihood_of
  have hrep : (frame_scores_of seed total).map FrameScore.confidence =
      List.replicate total (1 / 2 : ℚ) := by
    apply List.eq_replicate_iff.mpr
    constructor
    · simp [frame_scores_length]
    · intro b hb
      obtain ⟨s, hs, hb⟩ := List.mem_map.mp hb
      subst hb
      exact h s hs
  rw [hrep, List.sum_replicate, nsmul_eq_mul]
  have htpos : (0 : ℚ) < total := by
    have : 0 < total := Nat.pos_of_ne_zero htot
    exact_mod_cast this
  field_simp
  ring

theorem frameConf_zero_seed (i : Nat) : frameConf 0 i = 1 / 2 := by
  rw [frameConf_eq_rawConf]
  unfold rawConf pseudo_rand
  norm_num

theorem take8_ne_nil {l : List Char} (hne : l ≠ []) : l.take 8 ≠ [] := by
  cases l with
  | nil => exact absurd rfl hne
  | cons c rest => simp [List.take]

/-! ### The claims -/

/-- C6: a filename that does not end (case-insensitively) in `.mp4` or `.avi`
is rejected with HTTP 400 and the fixed message, for every store, every
hash function and every payload — no hashing, scoring, aggregation,
verification or persistence is performed. -/
theorem analyze_rejects_bad_extension
    (create_document : String → List (String × DocValue) → Except Unit String)
    (sha256_hexdigest : List Nat → String) (now fn : String) (content : List Nat)
    (hext : allowedExt fn = false) :
    analyze_media create_document sha256_hexdigest now fn content =
      .error (.httpException 400 "Only MP4 or AVI files are supported") := by
  unfold analyze_media
  rw [hext]
  simp

theorem analyze_rejects_bad_extension_witness :
    allowedExt "clip.mov" = false ∧
    analyze_media (fun _ _ => .error ()) (fun _ => zeroDigest) "t" "clip.mov" [] =
      .error (.httpException 400 "Only MP4 or AVI files are supported") :=
  ⟨by decide, analyze_rejects_bad_extension _ _ _ _ _ (by decide)⟩

/-- C5 counterexample: a malformed digest (`"zzz"`) given to the standalone
verify operation does not produce a validation error; the base-16
conversion raises an unhandled exception that surfaces as an internal
server error (HTTP 500). -/
theorem verify_invalid_hex_counterexample :
    verify_media "2024-01-01T00:00:00+00:00" "zzz" = .error .internalServerError := by
  decide

/-- C5 amended: the caller-supplied digest is lower-cased before use, but a
string that does not parse as a hexadecimal numeral makes the operation
fail with an internal server error (an unhandled exception), not with a
client validation error. -/
theorem verify_lowercase_then_internal_error (now s : String) :
    verify_media now s = verify_media now (pyLower s) ∧
    (pyIntHex? (pyLower s) = none → verify_media now s = .error .internalServerError) := by
  constructor
  · unfold verify_media
    rw [pyLower_idem]
  · intro h
    unfold verify_media
    simp only [h]

theorem verify_lowercase_then_internal_error_witness :
    pyIntHex? (pyLower "ZZZ") = none ∧
    verify_media "t" "ZZZ" = verify_media "t" (pyLower "ZZZ") ∧
    verify_media "t" "ZZZ" = .error .internalServerError :=
  ⟨by decide, (verify_lowercase_then_internal_error "t" "ZZZ").1,
    (verify_lowercase_then_internal_error "t" "ZZZ").2 (by decide)⟩

/-- C7 counterexample: for the 65-character valid hex digest `"11…1"` the
returned `tx_hash` is not `"0x"` concatenated with the full lower-cased
digest — the source truncates the digest to its first 64 characters. -/
theorem verify_tx_hash_truncation_counterexample :
    (verify_media "t" ⟨List.replicate 65 '1'⟩).map VerifyResponse.tx_hash ≠
      Except.ok ("0x" ++ pyLower ⟨List.replicate 65 '1'⟩) := by
  decide

/-- C7 amended: for every accepted digest, `tx_hash` equals `"0x"` followed
by the first 64 characters of the lower-cased digest (hence the whole
digest whenever it has at most 64 characters), `network` is `"ethereum"`
and `contract_address` is the fixed constant. -/
theorem verify_tx_hash_spec (now s : String) (v : Int)
    (h : pyIntHex? (pyLower s) = some v) :
    ∃ u, verify_media now s = .ok u ∧
      u.tx_hash = "0x" ++ ⟨(pyLower s).data.take 64⟩ ∧
      u.network = "ethereum" ∧
      u.contract_address = "0xDeePTrAce00000000000000000000000000000001" ∧
      ((pyLower s).data.length ≤ 64 → u.tx_hash = "0x" ++ pyLower s) := by
  refine ⟨_, verify_media_eq now s v h, rfl, rfl, rfl, ?_⟩
  intro hlen
  show "0x" ++ (⟨(pyLower s).data.take 64⟩ : String) = "0x" ++ pyLower s
  congr 1
  show (⟨(pyLower s).data.take 64⟩ : String) = ⟨(pyLower s).data⟩
  congr 1
  exact List.take_of_length_le hlen

theorem verify_tx_hash_spec_witness :
    pyIntHex? (pyLower "Ab") = some 171 ∧
    (∃ u, verify_media "t" "Ab" = .ok u ∧
      u.tx_hash = "0x" ++ ⟨(pyLower "Ab").data.take 64⟩ ∧
      u.network = "ethereum" ∧
      u.contract_address = "0xDeePTrAce00000000000000000000000000000001" ∧
      ((pyLower "Ab").data.length ≤ 64 → u.tx_hash = "0x" ++ pyLower "Ab")) :=
  ⟨by decide, verify_tx_hash_spec "t" "Ab" 171 (by decide)⟩

/-- C1: on a valid upload, the seed is the base-16 value of the first 8
hex characters of the digest, and the emitted frame scores are exactly
`clamp(0.5 + 0.5 * ((pseudo_rand(i) + pseudo_rand(i / 3)) / 2), 0, 1)` for
`i` in `[0, 60)`, with frame indices emitted in increasing order from 0. -/
theorem analyze_frame_scores_spec
    (create_document : String → List (String × DocValue) → Except Unit String)
    (sha256_hexdigest : List Nat → String) (now fn : String) (content : List Nat)
    (hext : allowedExt fn = true)
    (hlen : (sha256_hexdigest content).data.length = 64)
    (hhex : ∀ c ∈ (sha256_hexdigest content).data, (hexDigit? c).isSome = true) :
    ∃ r, analyze_media create_document sha256_hexdigest now fn content = .ok r ∧
      pyIntHex? ⟨(sha256_hexdigest content).data.take 8⟩ =
        some ((hexValDigits ((sha256_hexdigest content).data.take 8) 0 : Nat) : Int) ∧
      r.frame_scores = (List.range 60).map (fun i =>
        { frame_index := i
          confidence := max 0 (min 1 (1 / 2 + 1 / 2 *
            ((pseudo_rand ((hexValDigits ((sha256_hexdigest content).data.take 8) 0 : Nat) : Int) i +
              pseudo_rand ((hexValDigits ((sha256_hexdigest content).data.take 8) 0 : Nat) : Int)
                (i / 3)) / 2))) }) ∧
      r.frame_scores.map FrameScore.frame_index = List.range 60 := by
  have hne : (sha256_hexdigest content).data ≠ [] := by
    intro hnil
    rw [hnil] at hlen
    simp at hlen
  have hhex8 : ∀ c ∈ (sha256_hexdigest content).data.take 8, (hexDigit? c).isSome = true :=
    fun c hc => hhex c (List.take_subset _ _ hc)
  have h8 := pyIntHex_digits (take8_ne_nil hne) hhex8
  have hv := pyIntHex_digits hne hhex
  refine ⟨_, analyze_media_eq _ _ _ _ _ _ _ hext h8 hv, h8, ?_, ?_⟩
  · rfl
  · show (frame_scores_of _ total_frames).map FrameScore.frame_index = List.range 60
    simp [frame_scores_of, List.map_map, Function.comp_def, total_frames]

theorem analyze_frame_scores_spec_witness :
    allowedExt "a.mp4" = true ∧
    zeroDigest.data.length = 64 ∧
    (∀ c ∈ zeroDigest.data, (hexDigit? c).isSome = true) ∧
    (∃ r, analyze_media (fun _ _ => Except.error ()) (fun _ => zeroDigest) "t" "a.mp4" [] = .ok r ∧
      pyIntHex? ⟨zeroDigest.data.take 8⟩ =
        some ((hexValDigits (zeroDigest.data.take 8) 0 : Nat) : Int) ∧
      r.frame_scores = (List.range 60).map (fun i =>
        { frame_index := i
          confidence := max 0 (min 1 (1 / 2 + 1 / 2 *
            ((pseudo_rand ((hexValDigits (zeroDigest.data.take 8) 0 : Nat) : Int) i +
              pseudo_rand ((hexValDigits (zeroDigest.data.take 8) 0 : Nat) : Int)
                (i / 3)) / 2))) }) ∧
      r.frame_scores.map FrameScore.frame_index = List.range 60) :=
  ⟨by decide, by decide, by decide,
    analyze_frame_scores_spec _ _ _ _ _ (by decide) (by decide) (by decide)⟩

theorem frame_scores_zero_half (total : Nat) :
    ∀ s ∈ frame_scores_of 0 total, s.confidence = 1 / 2 := by
  intro s hs
  obtain ⟨i, hi, hdef⟩ := List.mem_map.mp hs
  rw [← hdef]
  exact frameConf_zero_seed i

/-- C9: a digest whose first 8 hex characters are `"00000000"` yields seed
0, every pseudo-random value 0, sixty frame confidences all exactly 0.5,
and likelihood exactly 0.5. -/
theorem zero_seed_half_spec
    (create_document : String → List (String × DocValue) → Except Unit String)
    (sha256_hexdigest : List Nat → String) (now fn : String) (content : List Nat)
    (hext : allowedExt fn = true)
    (hne : (sha256_hexdigest content).data ≠ [])
    (hhex : ∀ c ∈ (sha256_hexdigest content).data, (hexDigit? c).isSome = true)
    (h8 : (sha256_hexdigest content).data.take 8 = "00000000".data) :
    pyIntHex? ⟨(sha256_hexdigest content).data.take 8⟩ = some 0 ∧
    (∀ i, pseudo_rand 0 i = 0) ∧
    ∃ r, analyze_media create_document sha256_hexdigest now fn content = .ok r ∧
      r.frame_scores.length = 60 ∧
      (∀ s ∈ r.frame_scores, s.confidence = 1 / 2) ∧
      r.deepfake_likelihood = 1 / 2 := by
  have hparse : pyIntHex? ⟨(sha256_hexdigest content).data.take 8⟩ = some 0 := by
    rw [h8]
    decide
  have hv := pyIntHex_digits hne hhex
  refine ⟨hparse, fun i => by unfold pseudo_rand; norm_num, ?_⟩
  refine ⟨_, analyze_media_eq _ _ _ _ _ 0 _ hext hparse hv, ?_, ?_, ?_⟩
  · show (frame_scores_of 0 total_frames).length = 60
    rw [frame_scores_length]
    rfl
  · exact frame_scores_zero_half total_frames
  · exact likelihood_of_all_half 0 total_frames (by decide)
      (frame_scores_zero_half total_frames)

theorem zero_seed_half_spec_witness :
    allowedExt "a.mp4" = true ∧
    zeroDigest.data ≠ [] ∧
    (∀ c ∈ zeroDigest.data, (hexDigit? c).isSome = true) ∧
    zeroDigest.data.take 8 = "00000000".data ∧
    (pyIntHex? ⟨zeroDigest.data.take 8⟩ = some 0 ∧
     (∀ i, pseudo_rand 0 i = 0) ∧
     ∃ r, analyze_media (fun _ _ => Except.error ()) (fun _ => zeroDigest) "t" "a.mp4" [] = .ok r ∧
       r.frame_scores.length = 60 ∧
       (∀ s ∈ r.frame_scores, s.confidence = 1 / 2) ∧
       r.deepfake_likelihood = 1 / 2) :=
  ⟨by decide, by decide, by decide, by decide,
    zero_seed_half_spec (fun _ _ => Except.error ()) (fun _ => zeroDigest) "t" "a.mp4" []
      (by decide) (by decide) (by decide) (by decide)⟩

/-- C4: the aggregate likelihood is the arithmetic mean of the confidence
values of the produced sequence and lies in `[0, 1]`; a 60-element all-0.5
sequence aggregates to exactly 0.5. -/
theorem aggregate_mean_spec (seed : Int) (total : Nat) (htot : total ≠ 0) :
    deepfake_likelihood_of seed total =
      ((frame_scores_of seed total).map FrameScore.confidence).sum /
        ((frame_scores_of seed total).length : ℚ) ∧
    0 ≤ deepfake_likelihood_of seed total ∧ deepfake_likelihood_of seed total ≤ 1 ∧
    ((∀ s ∈ frame_scores_of seed 60, s.confidence = 1 / 2) →
      deepfake_likelihood_of seed 60 = 1 / 2) := by
  have hb := deepfake_likelihood_bounds seed total htot
  refine ⟨?_, by linarith [hb.1], by linarith [hb.2],
    fun h => likelihood_of_all_half seed 60 (by decide) h⟩
  unfold deepfake_likelihood_of
  rw [frame_scores_length]

theorem aggregate_mean_spec_witness :
    (60 : Nat) ≠ 0 ∧
    (∀ s ∈ frame_scores_of 0 60, s.confidence = 1 / 2) ∧
    (deepfake_likelihood_of 0 60 =
       ((frame_scores_of 0 60).map FrameScore.confidence).sum /
         ((frame_scores_of 0 60).length : ℚ) ∧
     0 ≤ deepfake_likelihood_of 0 60 ∧ deepfake_likelihood_of 0 60 ≤ 1 ∧
     ((∀ s ∈ frame_scores_of 0 60, s.confidence = 1 / 2) →
       deepfake_likelihood_of 0 60 = 1 / 2)) ∧
    deepfake_likelihood_of 0 60 = 1 / 2 :=
  ⟨by decide, frame_scores_zero_half 60, aggregate_mean_spec 0 60 (by decide),
    (aggregate_mean_spec 0 60 (by decide)).2.2.2 (frame_scores_zero_half 60)⟩

/-- C10: the pre-clamp raw confidence always lies in `[0.5, 0.99975]`
(indeed in `[0.5, 0.9995]`), so the clamp never alters a value, and every
emitted confidence and the aggregate likelihood lie in `[0.5, 1)`. -/
theorem raw_confidence_bounds_spec (seed : Int) (i : Nat) (total : Nat) (htot : total ≠ 0) :
    1 / 2 ≤ rawConf seed i ∧ rawConf seed i ≤ 99975 / 100000 ∧
    clampConf (rawConf seed i) = rawConf seed i ∧
    frameConf seed i = rawConf seed i ∧
    1 / 2 ≤ frameConf seed i ∧ frameConf seed i < 1 ∧
    1 / 2 ≤ deepfake_likelihood_of seed total ∧ deepfake_likelihood_of seed total < 1 := by
  have hrb := rawConf_bounds seed i
  have hfb := frameConf_bounds seed i
  have hlb := deepfake_likelihood_bounds seed total htot
  exact ⟨hrb.1, by linarith [hrb.2],
    clampConf_of_bounds (by linarith [hrb.1]) (by linarith [hrb.2]),
    frameConf_eq_rawConf seed i, hfb.1, by linarith [hfb.2],
    hlb.1, by linarith [hlb.2]⟩

theorem raw_confidence_bounds_spec_witness :
    (60 : Nat) ≠ 0 ∧
    (1 / 2 ≤ rawConf 0 0 ∧ rawConf 0 0 ≤ 99975 / 100000 ∧
     clampConf (rawConf 0 0) = rawConf 0 0 ∧
     frameConf 0 0 = rawConf 0 0 ∧
     1 / 2 ≤ frameConf 0 0 ∧ frameConf 0 0 < 1 ∧
     1 / 2 ≤ deepfake_likelihood_of 0 60 ∧ deepfake_likelihood_of 0 60 < 1) :=
  ⟨by decide, raw_confidence_bounds_spec 0 0 60 (by decide)⟩

theorem int_mod_beq_iff (n : Nat) :
    (((n : Int) % 2 == 0) = true) ↔ n % 2 = 0 := by
  rw [beq_iff_eq]
  omega

/-- C3: both in analyze and in the standalone verify operation, the
`verified` flag is true iff the digest's value as one base-16 integer is
even, equivalently iff its last hex character denotes an even nibble. -/
theorem verified_parity_spec
    (create_document : String → List (String × DocValue) → Except Unit String)
    (sha256_hexdigest : List Nat → String) (now fn digest : String) (content : List Nat)
    (cd cl : Char)
    (hext : allowedExt fn = true)
    (hneA : (sha256_hexdigest content).data ≠ [])
    (hhexA : ∀ c ∈ (sha256_hexdigest content).data, (hexDigit? c).isSome = true)
    (hlastA : (sha256_hexdigest content).data.getLast? = some cd)
    (hneV : digest.data ≠ [])
    (hhexV : ∀ c ∈ digest.data, (hexDigit? c).isSome = true)
    (hlastV : digest.data.getLast? = some cl) :
    (∃ r, analyze_media create_document sha256_hexdigest now fn content = .ok r ∧
      (r.verification.verified = true ↔ hexValDigits (sha256_hexdigest content).data 0 % 2 = 0) ∧
      (r.verification.verified = true ↔ (hexDigit? cd).getD 0 % 2 = 0)) ∧
    (∃ u, verify_media now digest = .ok u ∧
      (u.verified = true ↔ hexValDigits digest.data 0 % 2 = 0) ∧
      (u.verified = true ↔ (hexDigit? cl).getD 0 % 2 = 0)) := by
  constructor
  · have h8 := pyIntHex_digits (take8_ne_nil hneA)
      (fun c hc => hhexA c (List.take_subset _ _ hc))
    have hv := pyIntHex_digits hneA hhexA
    refine ⟨_, analyze_media_eq _ _ _ _ _ _ _ hext h8 hv, ?_, ?_⟩
    · exact int_mod_beq_iff _
    · rw [int_mod_beq_iff, hexValDigits_mod_two _ cd 0 hlastA]
  · have hneL : (pyLower digest).data ≠ [] := by
      show digest.data.map pyLowerChar ≠ []
      simp [hneV]
    have hhexL : ∀ c ∈ (pyLower digest).data, (hexDigit? c).isSome = true := by
      intro c hc
      obtain ⟨x, hx, hcx⟩ := List.mem_map.mp hc
      rw [← hcx, hexDigit_pyLowerChar]
      exact hhexV x hx
    have hvL := pyIntHex_digits hneL hhexL
    have hval : hexValDigits (pyLower digest).data 0 = hexValDigits digest.data 0 :=
      hexValDigits_map_lower digest.data 0
    refine ⟨_, verify_media_eq now digest _ hvL, ?_, ?_⟩
    · rw [int_mod_beq_iff, hval]
    · rw [int_mod_beq_iff, hval, hexValDigits_mod_two _ cl 0 hlastV]

set_option maxRecDepth 4000 in
theorem verified_parity_spec_witness :
    allowedExt "a.mp4" = true ∧
    zeroDigest.data ≠ [] ∧
    (∀ c ∈ zeroDigest.data, (hexDigit? c).isSome = true) ∧
    zeroDigest.data.getLast? = some '0' ∧
    ("1A" : String).data ≠ [] ∧
    (∀ c ∈ ("1A" : String).data, (hexDigit? c).isSome = true) ∧
    ("1A" : String).data.getLast? = some 'A' ∧
    ((∃ r, analyze_media (fun _ _ => Except.error ()) (fun _ => zeroDigest) "t" "a.mp4" [] = .ok r ∧
      (r.verification.verified = true ↔ hexValDigits zeroDigest.data 0 % 2 = 0) ∧
      (r.verification.verified = true ↔ (hexDigit? '0').getD 0 % 2 = 0)) ∧
    (∃ u, verify_media "t" "1A" = .ok u ∧
      (u.verified = true ↔ hexValDigits ("1A" : String).data 0 % 2 = 0) ∧
      (u.verified = true ↔ (hexDigit? 'A').getD 0 % 2 = 0))) :=
  ⟨by decide, by decide, by decide, by decide, by decide, by decide, by decide,
    verified_parity_spec (fun _ _ => Except.error ()) (fun _ => zeroDigest) "t" "a.mp4" "1A" []
      '0' 'A' (by decide) (by decide) (by decide) (by decide) (by decide) (by decide) (by decide)⟩

/-- C2: when the persistence store's create operation fails the request
still succeeds with `job_id = "temporary"` and all other response fields
identical to a successful persist; on success `job_id` is the
store-assigned identifier. -/
theorem analyze_persistence_fallback
    (c₁ c₂ : String → List (String × DocValue) → Except Unit String)
    (sha256_hexdigest : List Nat → String) (now fn : String) (content : List Nat)
    (ident : String)
    (hfail : ∀ col doc, c₁ col doc = .error ())
    (hok : ∀ col doc, c₂ col doc = .ok ident)
    (hext : allowedExt fn = true)
    (hne : (sha256_hexdigest content).data ≠ [])
    (hhex : ∀ c ∈ (sha256_hexdigest content).data, (hexDigit? c).isSome = true) :
    ∃ r₁ r₂, analyze_media c₁ sha256_hexdigest now fn content = .ok r₁ ∧
      analyze_media c₂ sha256_hexdigest now fn content = .ok r₂ ∧
      r₁.job_id = "temporary" ∧ r₂.job_id = ident ∧
      r₁.filename = r₂.filename ∧ r₁.accuracy = r₂.accuracy ∧
      r₁.deepfake_likelihood = r₂.deepfake_likelihood ∧
      r₁.frame_scores = r₂.frame_scores ∧
      r₁.analyzed_at = r₂.analyzed_at ∧ r₁.verification = r₂.verification := by
  have h8 := pyIntHex_digits (take8_ne_nil hne)
    (fun c hc => hhex c (List.take_subset _ _ hc))
  have hv := pyIntHex_digits hne hhex
  refine ⟨_, _, analyze_media_eq _ _ _ _ _ _ _ hext h8 hv,
    analyze_media_eq _ _ _ _ _ _ _ hext h8 hv, ?_, ?_, rfl, rfl, rfl, rfl, rfl, rfl⟩
  · show (match c₁ "analysisjob" _ with | .ok i => i | .error _ => "temporary") = "temporary"
    rw [hfail]
  · show (match c₂ "analysisjob" _ with | .ok i => i | .error _ => "temporary") = ident
    rw [hok]

theorem analyze_persistence_fallback_witness :
    (∀ col doc, (fun (_ : String) (_ : List (String × DocValue)) =>
        (Except.error () : Except Unit String)) col doc = .error ()) ∧
    (∀ col doc, (fun (_ : String) (_ : List (String × DocValue)) =>
        (Except.ok "abc123" : Except Unit String)) col doc = .ok "abc123") ∧
    allowedExt "a.mp4" = true ∧
    zeroDigest.data ≠ [] ∧
    (∀ c ∈ zeroDigest.data, (hexDigit? c).isSome = true) ∧
    (∃ r₁ r₂,
      analyze_media (fun _ _ => Except.error ()) (fun _ => zeroDigest) "t" "a.mp4" [] = .ok r₁ ∧
      analyze_media (fun _ _ => Except.ok "abc123") (fun _ => zeroDigest) "t" "a.mp4" [] = .ok r₂ ∧
      r₁.job_id = "temporary" ∧ r₂.job_id = "abc123" ∧
      r₁.filename = r₂.filename ∧ r₁.accuracy = r₂.accuracy ∧
      r₁.deepfake_likelihood = r₂.deepfake_likelihood ∧
      r₁.frame_scores = r₂.frame_scores ∧
      r₁.analyzed_at = r₂.analyzed_at ∧ r₁.verification = r₂.verification) :=
  ⟨fun _ _ => rfl, fun _ _ => rfl, by decide, by decide, by decide,
    analyze_persistence_fallback (fun _ _ => Except.error ()) (fun _ _ => Except.ok "abc123")
      (fun _ => zeroDigest) "t" "a.mp4" [] "abc123"
      (fun _ _ => rfl) (fun _ _ => rfl) (by decide) (by decide) (by decide)⟩

/-- C8 counterexample: a store that reports whether the record it is asked
to create has a `"verification"` field observes that the record written by
analyze does not contain one — the verification record is computed after
the persistence attempt and is not part of the persisted document. -/
theorem persisted_doc_missing_verification_counterexample :
    (analyze_media
      (fun _ doc => Except.ok
        (if (doc.map Prod.fst).contains "verification" then "withVerification"
         else "withoutVerification"))
      (fun _ => zeroDigest) "t" "clip.mp4" []).map AnalyzeResponse.job_id =
      Except.ok "withoutVerification" := by
  have heq := analyze_media_eq
    (fun _ doc => Except.ok
      (if (doc.map Prod.fst).contains "verification" then "withVerification"
       else "withoutVerification"))
    (fun _ => zeroDigest) "t" "clip.mp4" [] 0 ((hexValDigits zeroDigest.data 0 : Nat) : Int)
    (by decide) (by decide) (pyIntHex_digits (by decide) (by decide))
  rw [heq]
  rfl

/-- C8 amended: the record written to the `"analysisjob"` collection holds
exactly the fields `filename`, `filesize`, `filehash`, `status`,
`accuracy`, `deepfake_likelihood`, `model`, `frame_scores`, `analyzed_at`
— the analysis fields plus status and model, without the verification
record and without a job identifier; the store-assigned identifier is
whatever the create operation returns, and it becomes the response's
`job_id`. -/
theorem persisted_doc_spec
    (create_document : String → List (String × DocValue) → Except Unit String)
    (sha256_hexdigest : List Nat → String) (now fn : String) (content : List Nat)
    (seed v : Int)
    (hext : allowedExt fn = true)
    (h8 : pyIntHex? ⟨(sha256_hexdigest content).data.take 8⟩ = some seed)
    (hv : pyIntHex? (sha256_hexdigest content) = some v) :
    ((job_doc_of fn content.length (sha256_hexdigest content)
        (deepfake_likelihood_of seed total_frames)
        (frame_scores_of seed total_frames) now).map Prod.fst =
      ["filename", "filesize", "filehash", "status", "accuracy",
       "deepfake_likelihood", "model", "frame_scores", "analyzed_at"]) ∧
    "verification" ∉ (job_doc_of fn content.length (sha256_hexdigest content)
        (deepfake_likelihood_of seed total_frames)
        (frame_scores_of seed total_frames) now).map Prod.fst ∧
    ∃ r, analyze_media create_document sha256_hexdigest now fn content = .ok r ∧
      r.job_id = (match create_document "analysisjob"
          (job_doc_of fn content.length (sha256_hexdigest content)
            (deepfake_likelihood_of seed total_frames)
            (frame_scores_of seed total_frames) now) with
        | .ok i => i
        | .error _ => "temporary") ∧
      r.filename = fn ∧
      r.deepfake_likelihood = deepfake_likelihood_of seed total_frames ∧
      r.frame_scores = frame_scores_of seed total_frames ∧
      r.analyzed_at = now := by
  have hkeys : (job_doc_of fn content.length (sha256_hexdigest content)
      (deepfake_likelihood_of seed total_frames)
      (frame_scores_of seed total_frames) now).map Prod.fst =
      ["filename", "filesize", "filehash", "status", "accuracy",
       "deepfake_likelihood", "model", "frame_scores", "analyzed_at"] := rfl
  refine ⟨hkeys, ?_, _, analyze_media_eq _ _ _ _ _ _ _ hext h8 hv,
    rfl, rfl, rfl, rfl, rfl⟩
  rw [hkeys]
  decide

theorem persisted_doc_spec_witness :
    allowedExt "clip.mp4" = true ∧
    pyIntHex? ⟨zeroDigest.data.take 8⟩ = some 0 ∧
    pyIntHex? zeroDigest = some ((hexValDigits zeroDigest.data 0 : Nat) : Int) ∧
    (((job_doc_of "clip.mp4" (0 : Nat) zeroDigest
        (deepfake_likelihood_of 0 total_frames)
        (frame_scores_of 0 total_frames) "t").map Prod.fst =
      ["filename", "filesize", "filehash", "status", "accuracy",
       "deepfake_likelihood", "model", "frame_scores", "analyzed_at"]) ∧
    "verification" ∉ (job_doc_of "clip.mp4" (0 : Nat) zeroDigest
        (deepfake_likelihood_of 0 total_frames)
        (frame_scores_of 0 total_frames) "t").map Prod.fst ∧
    ∃ r, analyze_media (fun _ _ => Except.ok "abc123") (fun _ => zeroDigest) "t" "clip.mp4" [] = .ok r ∧
      r.job_id = (match (fun (_ : String) (_ : List (String × DocValue)) =>
            (Except.ok "abc123" : Except Unit String)) "analysisjob"
          (job_doc_of "clip.mp4" (0 : Nat) zeroDigest
            (deepfake_likelihood_of 0 total_frames)
            (frame_scores_of 0 total_frames) "t") with
        | .ok i => i
        | .error _ => "temporary") ∧
      r.filename = "clip.mp4" ∧
      r.deepfake_likelihood = deepfake_likelihood_of 0 total_frames ∧
      r.frame_scores = frame_scores_of 0 total_frames ∧
      r.analyzed_at = "t") :=
  ⟨by decide, by decide, pyIntHex_digits (by decide) (by decide),
    persisted_doc_spec (fun _ _ => Except.ok "abc123") (fun _ => zeroDigest) "t" "clip.mp4" []
      0 ((hexValDigits zeroDigest.data 0 : Nat) : Int)
      (by decide) (by decide) (pyIntHex_digits (by decide) (by decide))⟩
